import Mathlib

/-!
Shallow embedding of the PrintPricePro preflight engine.

Sources embedded here:
  * `src/workers/preflight.worker.ts` — the analysis worker: `getSeverity`,
    `buildResult`, `analyzePdf` (accumulator loop and issue generation),
    `convertCanvasToGrayscale`, `addBleed`, `generateTacHeatmap` and the
    message listener's tacHeatmap dispatch.
  * `src/utils/imposition.ts` — `createBooklet`'s signature size and
    spread-pairing computation.

Modelling conventions:
  * JavaScript numbers are modelled as exact rationals (`ℚ`); integer counters
    as `ℕ`/`ℤ`.  All numeric literals of the source (0.299, 25.4, 0.25, …) are
    exact decimal fractions, so `ℚ` represents them without loss.
  * `null`/`undefined`-able values are `Option`s; the JS `a ?? b` coalescing is
    `Option.orElse`, and `a || b` on numbers compares against `0`.
  * `Uint8ClampedArray` stores clamp to `[0,255]` and round half to even;
    `Uint8Array` stores truncate; `Math.round x = ⌊x + 1/2⌋`.  Each is embedded
    explicitly below.
  * Prose fields of issues (`message`, `details`) are omitted from the `Issue`
    record: no claim mentions them and they feed into nothing else.
  * Try/catch blocks that merely swallow sub-check failures are embedded as the
    non-throwing semantics of the same code.
-/

namespace Preflight

/-! ## Data model (src/types.ts) -/

/-- Severity enum from `src/types.ts`: info, warning, error. -/
inductive Severity where
  | info
  | warning
  | error
deriving DecidableEq, Repr

/-- ISSUE_CATEGORY values from `src/types.ts` (constructor `annots` stands for
the source's ANNOTATIONS value). -/
inductive IssueCategory where
  | images
  | color
  | fonts
  | metadata
  | transparency
  | bleedMargins
  | resolution
  | compliance
  | pageSetup
  | annots
  | formFields
  | multimedia
  | layers
  | other
deriving DecidableEq, Repr

/-- Normalized bounding box (`Bbox` in `src/types.ts`), 0–1 relative to the
page.  The worker always pushes the constant box (0,0,1,1). -/
structure NormBox where
  x : ℚ
  y : ℚ
  width : ℚ
  height : ℚ
deriving DecidableEq, Repr

/-- A preflight issue (`Issue` in `src/types.ts`).  `severity` is kept optional
because `getSeverity` defends against a missing value; the worker always sets
it.  Prose fields (`message`, `details`) are omitted (see file header). -/
structure Issue where
  id : String
  page : ℕ
  bbox : Option NormBox
  severity : Option Severity
  category : IssueCategory
  tags : List String := []
deriving DecidableEq, Repr

/-- File metadata (`FileMeta` in `src/types.ts`); the mime `type` field is
never read by the worker and is omitted. -/
structure FileMeta where
  name : String
  size : ℕ
deriving DecidableEq, Repr

/-- Per-category severity tallies (`CategorySummary` in `src/types.ts`). -/
structure CategorySummary where
  category : IssueCategory
  errors : ℕ
  warnings : ℕ
  info : ℕ
deriving DecidableEq, Repr

/-- Entry of `PreflightResult.pages`. -/
structure PageIssueCount where
  pageNumber : ℕ
  issuesCount : ℕ
deriving DecidableEq, Repr

/-- The `meta` sub-record of `PreflightResult`. -/
structure ResultMeta where
  fileName : String
  fileSize : ℕ
  pageCount : ℕ
deriving DecidableEq, Repr

/-- Analysis result (`PreflightResult` in `src/types.ts`).  The score is an
integer after the worker's `Math.round`; we keep it as `ℤ`. -/
structure PreflightResult where
  score : ℤ
  summary : String
  issues : List Issue
  pages : List PageIssueCount
  categorySummaries : List CategorySummary
  meta : ResultMeta
deriving DecidableEq, Repr

/-! ## Severity resolution (`getSeverity`, preflight.worker.ts lines 244–251) -/

/-- Case-insensitive substring test, used for the tag regexes
`/error|fatal|critical/i` and `/warn/i` of `getSeverity`.  `splitOn` yields
more than one piece exactly when the (nonempty) pattern occurs. -/
def containsCI (s pat : String) : Bool :=
  ((s.toLower).splitOn (pat.toLower)).length > 1

/-- `getSeverity` from preflight.worker.ts: explicit severity wins, otherwise
tags matching `/error|fatal|critical/i` give error, `/warn/i` warning, else
info. -/
def getSeverity (it : Issue) : Severity :=
  match it.severity with
  | some s => s
  | none =>
    if it.tags.any (fun t => containsCI t "error" || containsCI t "fatal" || containsCI t "critical") then
      Severity.error
    else if it.tags.any (fun t => containsCI t "warn") then
      Severity.warning
    else
      Severity.info

/-! ## Result construction (`buildResult`, preflight.worker.ts lines 468–551) -/

/-- Number of issues whose resolved severity is `sev`. -/
def severityCount (issues : List Issue) (sev : Severity) : ℕ :=
  (issues.filter (fun it => getSeverity it = sev)).length

/-- The score fold of `buildResult`: start at 100, subtract 15 per error and
7 per warning (`for (const it of issues) …`). -/
def scoreFold (issues : List Issue) : ℤ :=
  issues.foldl
    (fun s it =>
      match getSeverity it with
      | Severity.error => s - 15
      | Severity.warning => s - 7
      | Severity.info => s)
    100

/-- Insertion-ordered deduplication, modelling JS `Set`/`Map` key order. -/
def dedupKeepFirst (l : List String) : List String :=
  l.foldl (fun acc s => if s ∈ acc then acc else acc ++ [s]) []

/-- Insertion-ordered list of categories with at least one issue (the key
order of `catMap` in `buildResult`). -/
def categoryOrder (issues : List Issue) : List IssueCategory :=
  issues.foldl (fun acc it => if it.category ∈ acc then acc else acc ++ [it.category]) []

/-- The `categorySummaries` computed by `buildResult`. -/
def buildCategorySummaries (issues : List Issue) : List CategorySummary :=
  (categoryOrder issues).map fun cat =>
    { category := cat
      errors := (issues.filter (fun it => it.category = cat ∧ getSeverity it = Severity.error)).length
      warnings := (issues.filter (fun it => it.category = cat ∧ getSeverity it = Severity.warning)).length
      info := (issues.filter (fun it => it.category = cat ∧ getSeverity it = Severity.info)).length }

/-- The summary sentence of the `else` branch of `buildResult`. -/
def foundSummary (errorCount warnCount infoCount : ℕ) : String :=
  "Found " ++ toString errorCount ++ " errors, " ++ toString warnCount ++
    " warnings and " ++ toString infoCount ++ " info issues on the sampled pages."

/-- `buildResult` from preflight.worker.ts lines 468–551: score fold with
clamp, summary sentence, per-category tallies, per-page issue counts and the
result meta record.  `Math.round` on the (integer) score is the identity. -/
def buildResult (issues : List Issue) (pageCount : ℕ) (fileMeta : FileMeta) :
    PreflightResult :=
  let score : ℤ := min 100 (max 0 (scoreFold issues))
  let errorCount := severityCount issues Severity.error
  let warnCount := severityCount issues Severity.warning
  let infoCount := severityCount issues Severity.info
  let summary : String :=
    if issues.length = 0 then
      "No issues found on the sampled pages."
    else
      foundSummary errorCount warnCount infoCount
  let pages : List PageIssueCount :=
    (List.range pageCount).map fun idx =>
      { pageNumber := idx + 1
        issuesCount := (issues.filter (fun it => it.page = idx + 1)).length }
  { score := score
    summary := summary
    issues := issues
    pages := pages
    categorySummaries := buildCategorySummaries issues
    meta := { fileName := fileMeta.name, fileSize := fileMeta.size, pageCount := pageCount } }

/-! ## Size and geometry utilities (preflight.worker.ts lines 228–242) -/

/-- `mmFromPt` from preflight.worker.ts: `(pt * 25.4) / 72`. -/
def mmFromPt (pt : ℚ) : ℚ :=
  (pt * (254 / 10)) / 72

/-- The outcome of `classifySize` (preflight.worker.ts lines 232–242).  The
source returns a label string; only its membership in the named-size family is
consumed (via the regex `/A4|A5|170 × 240|Letter/i` at line 1068), and a
custom label `w.toFixed(1) × h.toFixed(1) mm` built from digits, dots, spaces
and `mm` can never match that regex, so the classification below carries the
same information. -/
inductive SizeClass where
  | a5
  | trade170x240
  | a4
  | usLetter
  | custom (wMm hMm : ℚ)
deriving DecidableEq, Repr

/-- `classifySize` from preflight.worker.ts lines 232–242: bucket the sorted
millimeter dimensions against named sizes with a `< 3` mm tolerance. -/
def classifySize (widthPt heightPt : ℚ) : SizeClass :=
  let w := mmFromPt (min widthPt heightPt)
  let h := mmFromPt (max widthPt heightPt)
  let isClose := fun (a b : ℚ) => |a - b| < 3
  if isClose w 148 ∧ isClose h 210 then SizeClass.a5
  else if isClose w 170 ∧ isClose h 240 then SizeClass.trade170x240
  else if isClose w 210 ∧ isClose h 297 then SizeClass.a4
  else if isClose w 210 ∧ isClose h 280 then SizeClass.usLetter
  else SizeClass.custom w h

/-- The `isCustom` test of the non-standard-size rule (line 1068). -/
def isCustomSize (widthPt heightPt : ℚ) : Bool :=
  match classifySize widthPt heightPt with
  | SizeClass.custom _ _ => true
  | _ => false

/-- A pdf-lib geometry box `{x, y, width, height}`. -/
structure Box where
  x : ℚ
  y : ℚ
  width : ℚ
  height : ℚ
deriving DecidableEq, Repr

/-! ## Bleed-box classification (preflight.worker.ts lines 713–744) -/

/-- Outcome of the per-page trim-vs-bleed box check. -/
inductive BleedClass where
  | missing
  | insufficient
  | ok
deriving DecidableEq, Repr

/-- The four trim-box-to-bleed-box gaps (left, bottom, right, top) computed at
preflight.worker.ts lines 720–723. -/
def bleedGaps (trimBox bleedBox : Box) : ℚ × ℚ × ℚ × ℚ :=
  (trimBox.x - bleedBox.x,
   trimBox.y - bleedBox.y,
   (bleedBox.x + bleedBox.width) - (trimBox.x + trimBox.width),
   (bleedBox.y + bleedBox.height) - (trimBox.y + trimBox.height))

/-- The gap classification of preflight.worker.ts lines 725–744: all four gaps
within 0.1 pt of zero means missing bleed; otherwise a minimum gap below
2.9 mm means insufficient bleed.  `Math.min` of four values is folded as
nested binary `min`. -/
def classifyBleedBoxes (trimBox bleedBox : Box) : BleedClass :=
  let g := bleedGaps trimBox bleedBox
  let isZero := fun (n : ℚ) => |n| < 1 / 10
  if isZero g.1 ∧ isZero g.2.1 ∧ isZero g.2.2.1 ∧ isZero g.2.2.2 then
    BleedClass.missing
  else
    let minBleedMm :=
      min (mmFromPt g.1) (min (mmFromPt g.2.1) (min (mmFromPt g.2.2.1) (mmFromPt g.2.2.2)))
    if minBleedMm < 29 / 10 then BleedClass.insufficient else BleedClass.ok

/-- The four gaps as a list (left, bottom, right, top), for stating
properties of the classification. -/
def bleedGapsList (trimBox bleedBox : Box) : List ℚ :=
  let g := bleedGaps trimBox bleedBox
  [g.1, g.2.1, g.2.2.1, g.2.2.2]

/-! ## Bleed-fix transform (`addBleed`, preflight.worker.ts lines 405–462) -/

/-- Millimeters to points, as computed at line 414: `(bleedMm * 72) / 25.4`. -/
def bleedMmToPt (bleedMm : ℚ) : ℚ :=
  (bleedMm * 72) / (254 / 10)

/-- The three geometry boxes written to one output page. -/
structure PageBoxes where
  media : Box
  trim : Box
  bleed : Box
deriving DecidableEq, Repr

/-- Per-page geometry rewrite of `addBleed` (lines 416–441).  `orig` is the
page's media box; `page.getSize()` yields its width/height (pdf-lib
normalizes away the origin).  The code sets
`setMediaBox(-b, -b, w + 2b, h + 2b)`, `setTrimBox(0, 0, w, h)` and
`setBleedBox(-b, -b, w + 2b, h + 2b)`. -/
def addBleedPage (bleedPt : ℚ) (orig : Box) : PageBoxes :=
  let width := orig.width
  let height := orig.height
  { media := ⟨-bleedPt, -bleedPt, width + 2 * bleedPt, height + 2 * bleedPt⟩
    trim := ⟨0, 0, width, height⟩
    bleed := ⟨-bleedPt, -bleedPt, width + 2 * bleedPt, height + 2 * bleedPt⟩ }

/-- `addBleed` over the whole document: every page gets the same rewrite with
`bleedPt = bleedMmToPt bleedMm` (default `bleedMm = 3`). -/
def addBleed (bleedMm : ℚ) (pages : List Box) : List PageBoxes :=
  pages.map (addBleedPage (bleedMmToPt bleedMm))

/-- Specification-side box expansion: grow a box outward by `b` on all four
sides (lower-left moves by `-b`, width/height grow by `2b`). -/
def expandBox (b : ℚ) (box : Box) : Box :=
  ⟨box.x - b, box.y - b, box.width + 2 * b, box.height + 2 * b⟩

/-! ## Grayscale pixel transform (preflight.worker.ts lines 274–286) -/

/-- Round half to even, the rounding mode of `Uint8ClampedArray` stores. -/
def roundHalfEven (q : ℚ) : ℤ :=
  let f := ⌊q⌋
  let r := q - f
  if r < 1 / 2 then f
  else if 1 / 2 < r then f + 1
  else if f % 2 = 0 then f else f + 1

/-- ECMAScript `Uint8ClampedArray` store semantics: clamp to `[0, 255]`,
round half to even. -/
def clampRound8 (q : ℚ) : ℕ :=
  if q ≤ 0 then 0
  else if 255 ≤ q then 255
  else (roundHalfEven q).toNat

/-- One RGBA pixel of canvas image data (each channel 0–255). -/
structure Pixel where
  r : ℕ
  g : ℕ
  b : ℕ
  a : ℕ
deriving DecidableEq, Repr

/-- The luma of `convertCanvasToGrayscale`:
`gray = 0.299 * r + 0.587 * g + 0.114 * b` (line 282). -/
def grayLuma (p : Pixel) : ℚ :=
  (299 / 1000) * p.r + (587 / 1000) * p.g + (114 / 1000) * p.b

/-- Per-pixel mutation of `convertCanvasToGrayscale` (lines 278–284): the luma
is written to all three color channels (each store clamps and rounds the same
value identically); alpha is untouched. -/
def grayscalePixel (p : Pixel) : Pixel :=
  let gray := clampRound8 (grayLuma p)
  { r := gray, g := gray, b := gray, a := p.a }

/-- `convertCanvasToGrayscale` over the full image data. -/
def convertCanvasToGrayscale (pixels : List Pixel) : List Pixel :=
  pixels.map grayscalePixel

/-! ## TAC heatmap (`generateTacHeatmap`, preflight.worker.ts lines 117–221,
and the listener dispatch at lines 1497–1506) -/

/-- JavaScript `Math.round`: `⌊x + 0.5⌋`. -/
def jsRound (q : ℚ) : ℤ :=
  ⌊q + 1 / 2⌋

/-- The per-pixel total-ink estimate of `generateTacHeatmap` (lines 174–206):
normalize to 0–1, composite against white with the pixel's alpha, naive
RGB→CMYK split, `(c+m+y+k) * 400`, `Math.round`. -/
def tacOfPixel (p : Pixel) : ℤ :=
  let r : ℚ := p.r / 255
  let g : ℚ := p.g / 255
  let b : ℚ := p.b / 255
  let a : ℚ := p.a / 255
  let rVis := r * a + (1 - a)
  let gVis := g * a + (1 - a)
  let bVis := b * a + (1 - a)
  let k := 1 - max rVis (max gVis bVis)
  let c := if k < 1 then (1 - rVis - k) / (1 - k) else 0
  let m := if k < 1 then (1 - gVis - k) / (1 - k) else 0
  let y := if k < 1 then (1 - bVis - k) / (1 - k) else 0
  jsRound ((c + m + y + k) * 400)

/-- The stored heatmap byte (line 210): `Math.min(255, tac * 255 / 400)`
written into a `Uint8Array`, which truncates toward zero. -/
def tacStoredByte (p : Pixel) : ℕ :=
  (⌊min (255 : ℚ) ((tacOfPixel p : ℚ) * 255 / 400)⌋).toNat

/-- One rendered page raster handed to the TAC analysis. -/
structure PageRaster where
  width : ℕ
  height : ℕ
  pixels : List Pixel
deriving DecidableEq, Repr

/-- Payload of a `tacHeatmapResult` message. -/
structure TacResult where
  pageIndex : ℤ
  width : ℕ
  height : ℕ
  values : List ℕ
  maxTac : ℤ
deriving DecidableEq, Repr

/-- Outcome of a tacHeatmap command as posted by the worker listener. -/
inductive TacOutbound where
  | tacHeatmapResult (r : TacResult)
  | tacHeatmapError (message : String)
deriving DecidableEq, Repr

/-- A document as seen by `generateTacHeatmap`: one raster per page. -/
structure TacDoc where
  pages : List PageRaster
deriving DecidableEq, Repr

/-- `generateTacHeatmap` (lines 117–221): throw when the 1-based `pageIndex`
is below 1 or above the page count — the success path scans the rendered
raster, storing quantized bytes and the running `Math.max` of rounded TAC
values (`maxTacFound` starts at 0). -/
def generateTacHeatmap (doc : TacDoc) (pageIndex : ℤ) : Except String TacResult :=
  if pageIndex < 1 ∨ pageIndex > (doc.pages.length : ℤ) then
    Except.error ("Page " ++ toString pageIndex ++ " out of range (1-" ++
      toString doc.pages.length ++ ")")
  else
    match doc.pages[(pageIndex - 1).toNat]? with
    | none => Except.error "page unavailable"
    | some raster =>
      Except.ok
        { pageIndex := pageIndex
          width := raster.width
          height := raster.height
          values := raster.pixels.map tacStoredByte
          maxTac := raster.pixels.foldl (fun acc p => max acc (tacOfPixel p)) 0 }

/-- The worker listener's tacHeatmap branch (lines 1497–1506): run
`generateTacHeatmap` with the command's `pageIndex` (default 1 when absent)
and post `tacHeatmapError` when it throws, `tacHeatmapResult` otherwise. -/
def handleTacHeatmap (doc : TacDoc) (pageIndexOpt : Option ℤ) : TacOutbound :=
  match generateTacHeatmap doc (pageIndexOpt.getD 1) with
  | Except.ok r => TacOutbound.tacHeatmapResult r
  | Except.error m => TacOutbound.tacHeatmapError m

/-! ## Booklet imposition (`createBooklet`, src/utils/imposition.ts) -/

/-- Signature size (imposition.ts lines 13–15): the page count plus
`(4 - totalPages % 4) % 4` padding pages. -/
def signatureSize (totalPages : ℕ) : ℕ :=
  totalPages + (4 - totalPages % 4) % 4

/-- The left/right logical page indices of spread `i` (imposition.ts lines
119–130): even spreads use `k = i / 2`, `left = signatureSize - 1 - k`,
`right = k`; odd spreads use `k = (i - 1) / 2`, `left = 1 + k`,
`right = signatureSize - 2 - k`. -/
def bookletSpread (sigSize : ℕ) (i : ℕ) : ℤ × ℤ :=
  if i % 2 = 0 then
    let k := i / 2
    ((sigSize : ℤ) - 1 - k, (k : ℤ))
  else
    let k := (i - 1) / 2
    (1 + (k : ℤ), (sigSize : ℤ) - 2 - k)

/-- All spreads produced by `createBooklet`'s sheet loop (lines 58 and
66–170): spread indices 0 to `signatureSize / 2 - 1`. -/
def bookletSpreads (totalPages : ℕ) : List (ℤ × ℤ) :=
  (List.range (signatureSize totalPages / 2)).map (bookletSpread (signatureSize totalPages))

/-- The `pagesMap` of imposition.ts lines 49–56: logical index `i` maps to the
embedded source page `i` when `i < totalPages` and to a blank (`none`)
padding entry otherwise. -/
def bookletPagesMap (totalPages : ℕ) : List (Option ℕ) :=
  (List.range (signatureSize totalPages)).map fun i =>
    if i < totalPages then some i else none

/-! ## Document model consumed by `analyzePdf`

`analyzePdf` walks a pdfjs document: per page a viewport size, an annotation
list, text content items, resolved font objects and an operator list; plus the
pdf-lib boxes (when the parallel pdf-lib load succeeded) and the document's
optional-content groups. -/

/-- The graphics-state operand of a `setGState` operator, as far as the
overprint best-effort check reads it (lines 968–979): `g.op ?? g.OP ??
g.overprint` and `g.opm ?? g.overprintMode`. -/
structure GState where
  op : Option Bool
  OP : Option Bool
  overprint : Option Bool
  opm : Option ℤ
  overprintMode : Option ℤ
deriving DecidableEq, Repr

/-- The operators `analyzePdf` distinguishes (lines 909–941).  Every opcode
outside these classes is `other`.  Image-paint operators carry the operand's
pixel dimensions when present (`'width' in args … Number(...)`, lines
993–1002); `setLineWidth` carries `args[0]` when it is a number (line 1033). -/
inductive PdfOp where
  | setFillRGBColor
  | setStrokeRGBColor
  | setFillRGBColorN
  | setStrokeRGBColorN
  | setFillCMYKColor
  | setStrokeCMYKColor
  | setFillGray
  | setStrokeGray
  | setGray
  | setAlphaConstant
  | setFillAlpha
  | setStrokeAlpha
  | setGState (g : GState)
  | paintImageXObject (dims : Option (ℚ × ℚ))
  | paintInlineImageXObject (dims : Option (ℚ × ℚ))
  | paintImageXObjectRepeat (dims : Option (ℚ × ℚ))
  | setLineWidth (w : Option ℚ)
  | other
deriving DecidableEq, Repr

/-- Membership in the `rgbOps` set (lines 912–916). -/
def isRgbOp : PdfOp → Bool
  | PdfOp.setFillRGBColor => true
  | PdfOp.setStrokeRGBColor => true
  | PdfOp.setFillRGBColorN => true
  | PdfOp.setStrokeRGBColorN => true
  | _ => false

/-- Membership in the `cmykOps` set (lines 919–921). -/
def isCmykOp : PdfOp → Bool
  | PdfOp.setFillCMYKColor => true
  | PdfOp.setStrokeCMYKColor => true
  | _ => false

/-- Membership in the `grayOps` set (lines 924–927). -/
def isGrayOp : PdfOp → Bool
  | PdfOp.setFillGray => true
  | PdfOp.setStrokeGray => true
  | PdfOp.setGray => true
  | _ => false

/-- Membership in the `transparencyOps` set (lines 929–933). -/
def isTransparencyOp : PdfOp → Bool
  | PdfOp.setAlphaConstant => true
  | PdfOp.setFillAlpha => true
  | PdfOp.setStrokeAlpha => true
  | PdfOp.setGState _ => true
  | _ => false

/-- Membership in the `imageOps` set (lines 935–941), with the operand's
pixel dimensions. -/
def imageOpDims : PdfOp → Option (Option (ℚ × ℚ))
  | PdfOp.paintImageXObject d => some d
  | PdfOp.paintInlineImageXObject d => some d
  | PdfOp.paintImageXObjectRepeat d => some d
  | _ => none

/-- A text content item (lines 821–862): optional font identifier, placement
transform and optional explicit font size. -/
structure TextItem where
  fontName : Option String
  transform : List ℚ
  fontSize : Option ℚ
deriving DecidableEq, Repr

/-- A resolved font object from `page.commonObjs` after the `font.data ||
font` extraction (lines 865–875): optional `loadedName`/`name` and the Type-3
flag (`font.isType3 || data?.isType3`). -/
structure FontObj where
  loadedName : Option String
  name : Option String
  isType3 : Bool
deriving DecidableEq, Repr

/-- One page as read by the sampling loop. -/
structure PageData where
  width : ℚ
  height : ℚ
  libBoxes : Box × Box × Box
  rawTrimBox : Bool
  rawBleedBox : Bool
  annotSubtypes : List String
  textItems : List TextItem
  fontObjs : List (String × FontObj)
  ops : List PdfOp
deriving Repr

/-- The loaded document: pages, whether the parallel pdf-lib load succeeded
(deciding robust vs. fallback box checks), and the optional-content order
array (if any). -/
structure DocModel where
  pages : List PageData
  libLoaded : Bool
  ocgOrder : Option (List String)
deriving Repr

/-- Font usage info aggregated per base name (`fontsUsed` map values). -/
structure FontFlags where
  subset : Bool
  type3 : Bool
deriving DecidableEq, Repr

/-- All accumulators of `analyzePdf` (lines 600–672), one field per mutable
local.  `Option` fields model both the `null` first-page trackers and the
`Infinity` sentinels (`minFontPt`, `worstImageDpi`: `none` is `Infinity`). -/
structure Acc where
  firstWidth : ℚ := 0
  firstHeight : ℚ := 0
  hasMixedSizes : Bool := false
  anyColorLikeOps : Bool := false
  firstColorPage : Option ℕ := none
  anyTransparencyOps : Bool := false
  firstTransparencyPage : Option ℕ := none
  missingBleedInfo : Bool := false
  missingBleedPage : Option ℕ := none
  insufficientBleed : Bool := false
  insufficientBleedPage : Option ℕ := none
  type3Fonts : List String := []
  fontsUsed : List (String × FontFlags) := []
  imageCount : ℕ := 0
  firstImagePage : Option ℕ := none
  lowResImages : ℕ := 0
  firstLowResPage : Option ℕ := none
  worstImageDpi : Option ℚ := none
  worstImagePage : Option ℕ := none
  hasAnnots : Bool := false
  firstAnnotPage : Option ℕ := none
  hasFormFields : Bool := false
  firstFormPage : Option ℕ := none
  hasMultimedia : Bool := false
  firstMultimediaPage : Option ℕ := none
  hasLayers : Bool := false
  tinyTextChunks : ℕ := 0
  smallTextChunks : ℕ := 0
  firstTinyTextPage : Option ℕ := none
  firstSmallTextPage : Option ℕ := none
  minFontPt : Option ℚ := none
  minFontPage : Option ℕ := none
  hasRGB : Bool := false
  hasCMYK : Bool := false
  hasGray : Bool := false
  hairlineStrokes : ℕ := 0
  firstHairlinePage : Option ℕ := none
  overprintOps : ℕ := 0
  firstOverprintPage : Option ℕ := none
deriving Repr

/-- Keep an already-recorded first page, otherwise record `p`
(`if (x === null) x = pageIndex`). -/
def firstSeen (o : Option ℕ) (p : ℕ) : Option ℕ :=
  match o with
  | some x => some x
  | none => some p

/-- Add to a JS `Set<string>` (insertion-ordered, unique). -/
def addToSet (l : List String) (s : String) : List String :=
  if s ∈ l then l else l ++ [s]

/-- JS `Map.get`. -/
def mapGet (m : List (String × FontFlags)) (k : String) : Option FontFlags :=
  match m.find? (fun p => p.1 = k) with
  | some p => some p.2
  | none => none

/-- JS `Map.set`: overwrite in place when the key exists (keeping insertion
order), append otherwise. -/
def mapSet (m : List (String × FontFlags)) (k : String) (v : FontFlags) :
    List (String × FontFlags) :=
  if (m.find? (fun p => p.1 = k)).isSome then
    m.map (fun p => if p.1 = k then (k, v) else p)
  else
    m ++ [(k, v)]

/-- Per-annotation classification (lines 769–811): `Widget` marks form
fields; Movie/RichMedia/Sound/FileAttachment/Screen/3D mark multimedia;
Text/Highlight/Underline/Squiggly/StrikeOut/Caret/Ink/Popup/Link mark review
markup. -/
def processAnnot (pageIndex : ℕ) (acc : Acc) (subtype : String) : Acc :=
  let acc :=
    if subtype = "Widget" then
      { acc with hasFormFields := true, firstFormPage := firstSeen acc.firstFormPage pageIndex }
    else acc
  let acc :=
    if subtype = "Movie" ∨ subtype = "RichMedia" ∨ subtype = "Sound" ∨
        subtype = "FileAttachment" ∨ subtype = "Screen" ∨ subtype = "3D" then
      { acc with hasMultimedia := true,
                 firstMultimediaPage := firstSeen acc.firstMultimediaPage pageIndex }
    else acc
  if subtype = "Text" ∨ subtype = "Highlight" ∨ subtype = "Underline" ∨
      subtype = "Squiggly" ∨ subtype = "StrikeOut" ∨ subtype = "Caret" ∨
      subtype = "Ink" ∨ subtype = "Popup" ∨ subtype = "Link" then
    { acc with hasAnnots := true, firstAnnotPage := firstSeen acc.firstAnnotPage pageIndex }
  else acc

/-- The effective font size of a text item (lines 828–839): the explicit
`fontSize` when it is a nonzero number, otherwise the dominant absolute scale
component `max |transform[0]| |transform[3]|`; then `Math.abs`. -/
def itemFontSizePt (item : TextItem) : ℚ :=
  let t0 := ((item.transform.get? 0).getD 0)
  let t3 := ((item.transform.get? 3).getD 0)
  let fromTransform := max |t0| |t3|
  let fs := item.fontSize.getD 0
  let raw := if fs ≠ 0 then fs else fromTransform
  |raw|

/-- Per-text-item size tracking (lines 841–862): update the global minimum and
classify as tiny (< 6 pt) or small (6–8 pt). -/
def processTextItem (pageIndex : ℕ) (acc : Acc) (item : TextItem) : Acc :=
  let pt := itemFontSizePt item
  if pt > 0 then
    let acc :=
      if (match acc.minFontPt with
          | none => true
          | some m => pt < m) then
        { acc with minFontPt := some pt, minFontPage := some pageIndex }
      else acc
    if pt < 6 then
      { acc with tinyTextChunks := acc.tinyTextChunks + 1,
                 firstTinyTextPage := firstSeen acc.firstTinyTextPage pageIndex }
    else if pt < 8 then
      { acc with smallTextChunks := acc.smallTextChunks + 1,
                 firstSmallTextPage := firstSeen acc.firstSmallTextPage pageIndex }
    else acc
  else acc

/-- Subset-prefix match of the regex `/^([A-Z]{6})\+(.+)$/` (line 878): six
uppercase letters, a plus sign and a nonempty remainder; returns the
un-prefixed base name on a match. -/
def subsetSplit (s : String) : Option String :=
  let cs := s.toList
  if cs.length ≥ 8 ∧ ((cs.take 6).all fun c => 'A' ≤ c ∧ c ≤ 'Z') ∧ cs.get? 6 = some '+' then
    some (String.mk (cs.drop 7))
  else none

/-- Per-font-name resolution (lines 865–898): look the identifier up in
`commonObjs`, derive the raw name (`loadedName || name || identifier`), strip
the subset prefix, record Type-3 fonts and OR the flags into `fontsUsed`. -/
def processFontName (fontObjs : List (String × FontObj)) (acc : Acc) (nm : String) : Acc :=
  match (fontObjs.find? (fun p => p.1 = nm)).map Prod.snd with
  | none => acc
  | some fo =>
    let rawName := ((fo.loadedName).orElse (fun _ => fo.name)).getD nm
    let subsetBase := subsetSplit rawName
    let subset := subsetBase.isSome
    let baseName := subsetBase.getD rawName
    let acc :=
      if fo.isType3 then { acc with type3Fonts := addToSet acc.type3Fonts baseName } else acc
    let existing := (mapGet acc.fontsUsed baseName).getD ⟨false, false⟩
    let newFlags : FontFlags := ⟨existing.subset || subset, existing.type3 || fo.isType3⟩
    { acc with fontsUsed := mapSet acc.fontsUsed baseName newFlags }

/-- The DPI estimate for a painted image (lines 1006–1011):
`min (pxW / (pageWpt / 72)) (pxH / (pageHpt / 72))`. -/
def imageDpi (pxW pxH pageW pageH : ℚ) : ℚ :=
  min (pxW / (pageW / 72)) (pxH / (pageH / 72))

/-- One iteration of the operator loop (lines 944–1042): color-space flags,
transparency with nested overprint detection, image counting with the DPI
heuristic, and hairline stroke widths.  The source's `isFinite(minDpi)` guard
(line 1013) holds exactly when both page dimensions are nonzero (the pixel
dimensions being positive), which is how it is embedded. -/
def stepOp (pageIndex : ℕ) (pageW pageH : ℚ) (acc : Acc) (op : PdfOp) : Acc :=
  let acc :=
    if isRgbOp op then
      { acc with anyColorLikeOps := true, hasRGB := true,
                 firstColorPage := firstSeen acc.firstColorPage pageIndex }
    else acc
  let acc := if isCmykOp op then { acc with hasCMYK := true } else acc
  let acc := if isGrayOp op then { acc with hasGray := true } else acc
  let acc :=
    if isTransparencyOp op then
      let acc := { acc with anyTransparencyOps := true }
      let acc :=
        match op with
        | PdfOp.setGState g =>
          let opFlag := ((g.op).orElse (fun _ => g.OP)).orElse (fun _ => g.overprint)
          let opm := (g.opm).orElse (fun _ => g.overprintMode)
          if opFlag = some true ∨ opm = some 1 then
            { acc with overprintOps := acc.overprintOps + 1,
                       firstOverprintPage := firstSeen acc.firstOverprintPage pageIndex }
          else acc
        | _ => acc
      { acc with firstTransparencyPage := firstSeen acc.firstTransparencyPage pageIndex }
    else acc
  let acc :=
    match imageOpDims op with
    | some dims =>
      let acc := { acc with imageCount := acc.imageCount + 1,
                            firstImagePage := firstSeen acc.firstImagePage pageIndex }
      match dims with
      | some (pxW, pxH) =>
        if pxW > 0 ∧ pxH > 0 then
          if pageW ≠ 0 ∧ pageH ≠ 0 then
            let minDpi := imageDpi pxW pxH pageW pageH
            let acc :=
              if (match acc.worstImageDpi with
                  | none => true
                  | some w => minDpi < w) then
                { acc with worstImageDpi := some minDpi, worstImagePage := some pageIndex }
              else acc
            if minDpi < 150 then
              { acc with lowResImages := acc.lowResImages + 1,
                         firstLowResPage := firstSeen acc.firstLowResPage pageIndex }
            else acc
          else acc
        else acc
      | none => acc
    | none => acc
  match op with
  | PdfOp.setLineWidth (some w) =>
    if w > 0 ∧ w < 1 / 4 then
      { acc with hairlineStrokes := acc.hairlineStrokes + 1,
                 firstHairlinePage := firstSeen acc.firstHairlinePage pageIndex }
    else acc
  | _ => acc

/-- One iteration of the page sampling loop (lines 691–1046): page size and
mixed-size flag, box checks (pdf-lib classification when the parallel load
succeeded, pdfjs presence fallback otherwise), annotation classification,
text sizes, font resolution and the operator walk. -/
def processPage (libLoaded : Bool) (pageIndex : ℕ) (pg : PageData) (acc : Acc) : Acc :=
  let acc :=
    if pageIndex = 1 then
      { acc with firstWidth := pg.width, firstHeight := pg.height }
    else if |pg.width - acc.firstWidth| > 1 ∨ |pg.height - acc.firstHeight| > 1 then
      { acc with hasMixedSizes := true }
    else acc
  let acc :=
    if libLoaded then
      match classifyBleedBoxes pg.libBoxes.2.1 pg.libBoxes.2.2 with
      | BleedClass.missing =>
        { acc with missingBleedInfo := true,
                   missingBleedPage := firstSeen acc.missingBleedPage pageIndex }
      | BleedClass.insufficient =>
        { acc with insufficientBleed := true,
                   insufficientBleedPage := firstSeen acc.insufficientBleedPage pageIndex }
      | BleedClass.ok => acc
    else
      if ¬pg.rawTrimBox ∨ ¬pg.rawBleedBox then
        { acc with missingBleedInfo := true,
                   missingBleedPage := firstSeen acc.missingBleedPage pageIndex }
      else acc
  let acc := pg.annotSubtypes.foldl (processAnnot pageIndex) acc
  let acc := pg.textItems.foldl (processTextItem pageIndex) acc
  let pageFontNames := dedupKeepFirst (pg.textItems.filterMap TextItem.fontName)
  let acc := pageFontNames.foldl (processFontName pg.fontObjs) acc
  pg.ops.foldl (stepOp pageIndex pg.width pg.height) acc

/-! ## Issue generation (preflight.worker.ts lines 585–597 and 1048–1433)

One definition per rule, carrying the id, page, bounding box, severity and
category pushed by the source (prose fields omitted, see file header). -/

/-- The constant bounding box `{x: 0, y: 0, width: 1, height: 1}` attached to
every rule-generated issue. -/
def fullPageBox : NormBox := ⟨0, 0, 1, 1⟩

/-- The zero-page short-circuit issue (lines 586–597); it is the only issue
pushed without a bounding box. -/
def emptyDocumentIssue : Issue :=
  { id := "empty-document", page := 1, bbox := none,
    severity := some Severity.error, category := IssueCategory.metadata }

/-- Rule `mixed-page-sizes` (lines 1051–1063). -/
def mixedSizesIssue : Issue :=
  { id := "mixed-page-sizes", page := 1, bbox := some fullPageBox,
    severity := some Severity.warning, category := IssueCategory.pageSetup }

/-- Rule `non-standard-size` (lines 1066–1082). -/
def nonStandardSizeIssue : Issue :=
  { id := "non-standard-size", page := 1, bbox := some fullPageBox,
    severity := some Severity.info, category := IssueCategory.metadata }

/-- Rule `color-content-detected` (lines 1085–1096). -/
def colorDetectedIssue (acc : Acc) : Issue :=
  { id := "color-content-detected", page := acc.firstColorPage.getD 1,
    bbox := some fullPageBox, severity := some Severity.info,
    category := IssueCategory.color }

/-- Rule `no-explicit-color-ops` (lines 1097–1109). -/
def noColorOpsIssue : Issue :=
  { id := "no-explicit-color-ops", page := 1, bbox := some fullPageBox,
    severity := some Severity.info, category := IssueCategory.color }

/-- Rule `transparency-detected` (lines 1112–1124). -/
def transparencyIssue (acc : Acc) : Issue :=
  { id := "transparency-detected", page := acc.firstTransparencyPage.getD 1,
    bbox := some fullPageBox, severity := some Severity.warning,
    category := IssueCategory.transparency }

/-- Rule `missing-bleed-info` (lines 1127–1139). -/
def missingBleedIssue (acc : Acc) : Issue :=
  { id := "missing-bleed-info", page := acc.missingBleedPage.getD 1,
    bbox := some fullPageBox, severity := some Severity.warning,
    category := IssueCategory.bleedMargins }

/-- Rule `insufficient-bleed` (lines 1142–1154). -/
def insufficientBleedIssue (acc : Acc) : Issue :=
  { id := "insufficient-bleed", page := acc.insufficientBleedPage.getD 1,
    bbox := some fullPageBox, severity := some Severity.warning,
    category := IssueCategory.bleedMargins }

/-- Rule `type3-fonts-present` (lines 1157–1169). -/
def type3FontsIssue : Issue :=
  { id := "type3-fonts-present", page := 1, bbox := some fullPageBox,
    severity := some Severity.warning, category := IssueCategory.fonts }

/-- Rule `fonts-used-summary` (lines 1172–1193). -/
def fontsSummaryIssue : Issue :=
  { id := "fonts-used-summary", page := 1, bbox := some fullPageBox,
    severity := some Severity.info, category := IssueCategory.fonts }

/-- Rule `text-too-small` (lines 1196–1214). -/
def textTooSmallIssue (acc : Acc) : Issue :=
  { id := "text-too-small",
    page := ((acc.firstTinyTextPage).orElse (fun _ => acc.minFontPage)).getD 1,
    bbox := some fullPageBox, severity := some Severity.warning,
    category := IssueCategory.fonts }

/-- Rule `text-small` (lines 1215–1233). -/
def textSmallIssue (acc : Acc) : Issue :=
  { id := "text-small",
    page := ((acc.firstSmallTextPage).orElse (fun _ => acc.minFontPage)).getD 1,
    bbox := some fullPageBox, severity := some Severity.info,
    category := IssueCategory.fonts }

/-- Rule `mixed-rgb-cmyk` (lines 1238–1249). -/
def mixedRgbCmykIssue (acc : Acc) : Issue :=
  { id := "mixed-rgb-cmyk", page := acc.firstColorPage.getD 1,
    bbox := some fullPageBox, severity := some Severity.warning,
    category := IssueCategory.color }

/-- Rule `rgb-only-content` (lines 1250–1261). -/
def rgbOnlyIssue (acc : Acc) : Issue :=
  { id := "rgb-only-content", page := acc.firstColorPage.getD 1,
    bbox := some fullPageBox, severity := some Severity.info,
    category := IssueCategory.color }

/-- Rule `cmyk-only-content` (lines 1262–1273). -/
def cmykOnlyIssue : Issue :=
  { id := "cmyk-only-content", page := 1, bbox := some fullPageBox,
    severity := some Severity.info, category := IssueCategory.color }

/-- Rule `grayscale-only-content` (lines 1274–1286). -/
def grayOnlyIssue : Issue :=
  { id := "grayscale-only-content", page := 1, bbox := some fullPageBox,
    severity := some Severity.info, category := IssueCategory.color }

/-- Rule `hairline-strokes` (lines 1289–1302). -/
def hairlinesIssue (acc : Acc) : Issue :=
  { id := "hairline-strokes", page := acc.firstHairlinePage.getD 1,
    bbox := some fullPageBox, severity := some Severity.warning,
    category := IssueCategory.images }

/-- Rule `overprint-detected` (lines 1305–1318). -/
def overprintIssue (acc : Acc) : Issue :=
  { id := "overprint-detected", page := acc.firstOverprintPage.getD 1,
    bbox := some fullPageBox, severity := some Severity.info,
    category := IssueCategory.color }

/-- Rule `low-resolution-images` (lines 1323–1342). -/
def lowResIssue (acc : Acc) : Issue :=
  { id := "low-resolution-images",
    page := ((acc.firstLowResPage).orElse (fun _ => acc.worstImagePage)).getD 1,
    bbox := some fullPageBox, severity := some Severity.warning,
    category := IssueCategory.images }

/-- Rule `no-images-detected` (lines 1345–1357). -/
def noImagesIssue : Issue :=
  { id := "no-images-detected", page := 1, bbox := some fullPageBox,
    severity := some Severity.info, category := IssueCategory.images }

/-- Rule `annotations-present` (lines 1360–1372). -/
def annotsPresentIssue (acc : Acc) : Issue :=
  { id := "annotations-present", page := acc.firstAnnotPage.getD 1,
    bbox := some fullPageBox, severity := some Severity.warning,
    category := IssueCategory.annots }

/-- Rule `form-fields-present` (lines 1375–1387). -/
def formFieldsIssue (acc : Acc) : Issue :=
  { id := "form-fields-present", page := acc.firstFormPage.getD 1,
    bbox := some fullPageBox, severity := some Severity.warning,
    category := IssueCategory.formFields }

/-- Rule `multimedia-content` (lines 1390–1402). -/
def multimediaIssue (acc : Acc) : Issue :=
  { id := "multimedia-content", page := acc.firstMultimediaPage.getD 1,
    bbox := some fullPageBox, severity := some Severity.error,
    category := IssueCategory.multimedia }

/-- Rule `layers-detected` (lines 1405–1417). -/
def layersIssue : Issue :=
  { id := "layers-detected", page := 1, bbox := some fullPageBox,
    severity := some Severity.info, category := IssueCategory.layers }

/-- Rule `very-large-file` (lines 1420–1433). -/
def largeFileIssue : Issue :=
  { id := "very-large-file", page := 1, bbox := some fullPageBox,
    severity := some Severity.warning, category := IssueCategory.metadata }

/-- The rule-evaluation fold of `analyzePdf` (lines 1048–1433), pushing
zero-or-one issue per rule onto `issues` in source order.  The color rule is
an unconditional if/else.  The tiny/small text rules and the four color-space
rules are if/else-if chains. -/
def generateIssues (acc : Acc) (fileMeta : FileMeta) : List Issue :=
  (if acc.hasMixedSizes then [mixedSizesIssue] else []) ++
  (if acc.firstWidth ≠ 0 ∧ acc.firstHeight ≠ 0 ∧ isCustomSize acc.firstWidth acc.firstHeight then
      [nonStandardSizeIssue]
    else []) ++
  (if acc.anyColorLikeOps then [colorDetectedIssue acc] else [noColorOpsIssue]) ++
  (if acc.anyTransparencyOps then [transparencyIssue acc] else []) ++
  (if acc.missingBleedInfo then [missingBleedIssue acc] else []) ++
  (if acc.insufficientBleed then [insufficientBleedIssue acc] else []) ++
  (if acc.type3Fonts.length > 0 then [type3FontsIssue] else []) ++
  (if acc.fontsUsed.length > 0 then [fontsSummaryIssue] else []) ++
  (if acc.tinyTextChunks > 0 then [textTooSmallIssue acc]
    else if acc.smallTextChunks > 0 then [textSmallIssue acc]
    else []) ++
  (if acc.hasRGB ∧ acc.hasCMYK then [mixedRgbCmykIssue acc]
    else if acc.hasRGB ∧ ¬acc.hasCMYK then [rgbOnlyIssue acc]
    else if acc.hasCMYK ∧ ¬acc.hasRGB ∧ ¬acc.hasGray then [cmykOnlyIssue]
    else if ¬acc.hasRGB ∧ ¬acc.hasCMYK ∧ acc.hasGray then [grayOnlyIssue]
    else []) ++
  (if acc.hairlineStrokes > 0 then [hairlinesIssue acc] else []) ++
  (if acc.overprintOps > 0 then [overprintIssue acc] else []) ++
  (if acc.lowResImages > 0 then [lowResIssue acc] else []) ++
  (if acc.imageCount = 0 then [noImagesIssue] else []) ++
  (if acc.hasAnnots then [annotsPresentIssue acc] else []) ++
  (if acc.hasFormFields then [formFieldsIssue acc] else []) ++
  (if acc.hasMultimedia then [multimediaIssue acc] else []) ++
  (if acc.hasLayers then [layersIssue] else []) ++
  (if (fileMeta.size : ℚ) / (1024 * 1024) > 150 then [largeFileIssue] else [])

/-- The initial accumulator state: the document-level layer detection (lines
674–688) runs before the page loop; every other field starts at its default. -/
def initAcc (doc : DocModel) : Acc :=
  { hasLayers :=
      match doc.ocgOrder with
      | some order => decide (order.length > 0)
      | none => false }

/-- `analyzePdf` (lines 557–1437): the zero-page short-circuit, then the
sampling loop over the first `min(pageCount, 10)` pages (1-based indices),
then the rule evaluation, then `buildResult`. -/
def analyzePdf (doc : DocModel) (fileMeta : FileMeta) : PreflightResult :=
  let pageCount := doc.pages.length
  if pageCount = 0 then
    buildResult [emptyDocumentIssue] 0 fileMeta
  else
    let sample := doc.pages.take 10
    let acc :=
      (sample.enum).foldl
        (fun a ip => processPage doc.libLoaded (ip.1 + 1) ip.2 a)
        (initAcc doc)
    buildResult (generateIssues acc fileMeta) pageCount fileMeta

/-! # Theorems -/

/-- C2: the claimed booklet pairing for an 8-page document fails on the code:
`createBooklet`'s spread loop produces (7,0),(1,6),(6,1),(2,5) in 0-based
indices, so pages 3 and 4 are never placed while pages 1 and 6 appear twice —
contradicting the function's own comments ("8 pages: [8, 1], [2, 7], [6, 3],
[4, 5]") and the saddle-stitch intent. -/
theorem c2_booklet_code_bug :
    bookletSpreads 8 = [(7, 0), (1, 6), (6, 1), (2, 5)] ∧
    ((bookletSpreads 8).map Prod.fst ++ (bookletSpreads 8).map Prod.snd).count 3 = 0 ∧
    ((bookletSpreads 8).map Prod.fst ++ (bookletSpreads 8).map Prod.snd).count 6 = 2 := by
  decide

/-- C5: `createBooklet` computes the signature size as the page count rounded
up to the next multiple of 4, pairs spread `i` as
even `i` (k = i/2): (signatureSize−1−k, k);
odd `i` (k = (i−1)/2): (1+k, signatureSize−2−k);
and logical indices at or beyond the original page count are blank padding
entries. -/
theorem c5_booklet_formula (n : ℕ) :
    (n ≤ signatureSize n ∧ signatureSize n % 4 = 0 ∧ signatureSize n < n + 4) ∧
    (∀ i, i < signatureSize n / 2 →
      (bookletSpreads n)[i]? = some
        (if i % 2 = 0 then
          ((signatureSize n : ℤ) - 1 - (i / 2 : ℕ), ((i / 2 : ℕ) : ℤ))
        else
          (1 + (((i - 1) / 2 : ℕ) : ℤ), (signatureSize n : ℤ) - 2 - ((i - 1) / 2 : ℕ)))) ∧
    (∀ i, i < signatureSize n → ((bookletPagesMap n)[i]? = some none ↔ n ≤ i)) := by
  refine ⟨⟨?_, ?_, ?_⟩, ?_, ?_⟩
  · unfold signatureSize; omega
  · unfold signatureSize; omega
  · unfold signatureSize; omega
  · intro i hi
    unfold bookletSpreads
    rw [List.getElem?_map, List.getElem?_range hi]
    rfl
  · intro i hi
    unfold bookletPagesMap
    rw [List.getElem?_map, List.getElem?_range hi]
    simp only [Option.map_some', Option.some.injEq]
    split
    · rename_i h; simp; omega
    · rename_i h; simp; omega

/-- Witness for C5 at a 6-page document: signature size 8, spread 1 is
(1, 6), and padding index 7 is blank. -/
theorem c5_booklet_formula_witness :
    (bookletSpreads 6)[1]? = some (1, 6) ∧ (bookletPagesMap 6)[7]? = some none := by
  constructor
  · have h := (c5_booklet_formula 6).2.1 1 (by decide)
    simpa [signatureSize] using h
  · exact ((c5_booklet_formula 6).2.2 7 (by decide)).mpr (by decide)

/-- C4 counterexample: on a page whose original media box has a nonzero
origin (here (5, 5, 100, 200)), `addBleed` pins the trim box to
(0, 0, width, height), which differs from the original box by 5 pt — far
beyond the 0.01 pt tolerance — and the new media box likewise is not the
original box expanded outward. -/
theorem c4_bleed_counterexample :
    (addBleed 3 [⟨5, 5, 100, 200⟩])[0]? =
      some (addBleedPage (bleedMmToPt 3) ⟨5, 5, 100, 200⟩) ∧
    (addBleedPage (bleedMmToPt 3) ⟨5, 5, 100, 200⟩).trim ≠ (⟨5, 5, 100, 200⟩ : Box) ∧
    |(addBleedPage (bleedMmToPt 3) ⟨5, 5, 100, 200⟩).trim.x - 5| > 1 / 100 ∧
    |(addBleedPage (bleedMmToPt 3) ⟨5, 5, 100, 200⟩).media.x -
        (expandBox (bleedMmToPt 3) ⟨5, 5, 100, 200⟩).x| > 1 / 100 := by
  refine ⟨rfl, ?_, by norm_num [addBleedPage, bleedMmToPt], by norm_num [addBleedPage, bleedMmToPt, expandBox]⟩
  intro h
  have hx := congrArg Box.x h
  norm_num [addBleedPage] at hx

/-- C4 (amended): for every page whose original media box has origin (0, 0),
the bleed-fix transform sets the trim box to exactly the original box and
sets both the media box and the bleed box to exactly the original box
expanded outward by the bleed distance (millimeters converted to points) on
all four sides. -/
theorem c4_bleed_boxes (bleedMm : ℚ) (pages : List Box) (i : ℕ) (box : Box)
    (hbox : pages[i]? = some box) (hx : box.x = 0) (hy : box.y = 0) :
    (addBleed bleedMm pages)[i]? = some
      { media := expandBox (bleedMmToPt bleedMm) box
        trim := box
        bleed := expandBox (bleedMmToPt bleedMm) box } := by
  rcases box with ⟨x0, y0, w0, h0⟩
  dsimp only at hx hy
  subst hx; subst hy
  unfold addBleed
  rw [List.getElem?_map, hbox]
  simp only [Option.map_some', Option.some.injEq]
  unfold addBleedPage expandBox
  simp only [PageBoxes.mk.injEq, Box.mk.injEq]
  norm_num

/-- Witness for the amended C4 on a 100×200 pt page with the default 3 mm
bleed. -/
theorem c4_bleed_boxes_witness :
    (addBleed 3 [⟨0, 0, 100, 200⟩])[0]? = some
      { media := expandBox (bleedMmToPt 3) ⟨0, 0, 100, 200⟩
        trim := ⟨0, 0, 100, 200⟩
        bleed := expandBox (bleedMmToPt 3) ⟨0, 0, 100, 200⟩ } :=
  c4_bleed_boxes 3 [⟨0, 0, 100, 200⟩] 0 ⟨0, 0, 100, 200⟩ rfl rfl rfl

/-- C6: a sampled page is classified as missing bleed exactly when every
trim-to-bleed gap has absolute value below 0.1 pt, and as insufficient bleed
exactly when that fails and some gap converts to fewer than 2.9 mm (i.e. the
minimum gap in millimeters is below 2.9); a page with a uniform 3.5 mm gap
triggers neither issue and one with a uniform 2 mm gap is insufficient. -/
theorem c6_bleed_classification :
    (∀ tb bb : Box,
      classifyBleedBoxes tb bb = BleedClass.missing ↔
        ∀ g ∈ bleedGapsList tb bb, |g| < 1 / 10) ∧
    (∀ tb bb : Box,
      classifyBleedBoxes tb bb = BleedClass.insufficient ↔
        (¬(∀ g ∈ bleedGapsList tb bb, |g| < 1 / 10) ∧
          ∃ g ∈ bleedGapsList tb bb, mmFromPt g < 29 / 10)) ∧
    classifyBleedBoxes ⟨0, 0, 100, 200⟩
        (expandBox (bleedMmToPt (35 / 10)) ⟨0, 0, 100, 200⟩) = BleedClass.ok ∧
    classifyBleedBoxes ⟨0, 0, 100, 200⟩
        (expandBox (bleedMmToPt 2) ⟨0, 0, 100, 200⟩) = BleedClass.insufficient := by
  refine ⟨?_, ?_, ?_, ?_⟩
  · intro tb bb
    have hlist : (∀ g ∈ bleedGapsList tb bb, |g| < 1 / 10) ↔
        (|(bleedGaps tb bb).1| < 1 / 10 ∧ |(bleedGaps tb bb).2.1| < 1 / 10 ∧
         |(bleedGaps tb bb).2.2.1| < 1 / 10 ∧ |(bleedGaps tb bb).2.2.2| < 1 / 10) := by
      simp [bleedGapsList]
    rw [hlist]
    simp only [classifyBleedBoxes]
    split_ifs with h1 h2
    · simpa using h1
    · exact iff_of_false (by simp) h1
    · exact iff_of_false (by simp) h1
  · intro tb bb
    have hlist : (∀ g ∈ bleedGapsList tb bb, |g| < 1 / 10) ↔
        (|(bleedGaps tb bb).1| < 1 / 10 ∧ |(bleedGaps tb bb).2.1| < 1 / 10 ∧
         |(bleedGaps tb bb).2.2.1| < 1 / 10 ∧ |(bleedGaps tb bb).2.2.2| < 1 / 10) := by
      simp [bleedGapsList]
    have hmin : (min (mmFromPt (bleedGaps tb bb).1)
          (min (mmFromPt (bleedGaps tb bb).2.1)
            (min (mmFromPt (bleedGaps tb bb).2.2.1) (mmFromPt (bleedGaps tb bb).2.2.2))) < 29 / 10) ↔
        (∃ g ∈ bleedGapsList tb bb, mmFromPt g < 29 / 10) := by
      simp [bleedGapsList, min_lt_iff]
    rw [not_congr hlist, ← hmin]
    simp only [classifyBleedBoxes]
    split_ifs with h1 h2
    · exact iff_of_false (by simp) (fun hc => hc.1 h1)
    · exact iff_of_true rfl ⟨h1, h2⟩
    · exact iff_of_false (by simp) (fun hc => h2 hc.2)
  · norm_num [classifyBleedBoxes, bleedGaps, expandBox, bleedMmToPt, mmFromPt, abs, min_def]
  · norm_num [classifyBleedBoxes, bleedGaps, expandBox, bleedMmToPt, mmFromPt, abs, min_def]

/-- Witness for C6: the missing-bleed characterization applied to a page whose
trim and bleed boxes coincide. -/
theorem c6_bleed_classification_witness :
    classifyBleedBoxes ⟨0, 0, 100, 200⟩ ⟨0, 0, 100, 200⟩ = BleedClass.missing :=
  (c6_bleed_classification.1 ⟨0, 0, 100, 200⟩ ⟨0, 0, 100, 200⟩).mpr (by
    intro g hg
    simp [bleedGapsList, bleedGaps] at hg
    simp [hg])

/-- C7: for a painted image whose operand carries positive pixel dimensions on
a page with positive point dimensions, the operator walk increments the
low-resolution counter exactly when
`min (pxW / (pageW/72)) (pxH / (pageH/72))` is strictly below 150; the
900×1200 px image on a 432×576 pt page estimates exactly 150 DPI and is not
counted. -/
theorem c7_image_dpi (pxW pxH pageW pageH : ℚ) (acc : Acc) (pageIndex : ℕ)
    (h1 : 0 < pxW) (h2 : 0 < pxH) (h3 : 0 < pageW) (h4 : 0 < pageH) :
    ((stepOp pageIndex pageW pageH acc (PdfOp.paintImageXObject (some (pxW, pxH)))).lowResImages
        = acc.lowResImages +
          (if min (pxW / (pageW / 72)) (pxH / (pageH / 72)) < 150 then 1 else 0)) ∧
    imageDpi 900 1200 432 576 = 150 ∧
    (stepOp 1 432 576 {} (PdfOp.paintImageXObject (some (900, 1200)))).lowResImages = 0 := by
  refine ⟨?_, by norm_num [imageDpi, min_def], ?_⟩
  · simp only [stepOp, isRgbOp, isCmykOp, isGrayOp, isTransparencyOp, imageOpDims, imageDpi]
    rw [if_pos ⟨h1, h2⟩, if_pos ⟨h3.ne', h4.ne'⟩]
    split_ifs <;> simp
  · norm_num [stepOp, isRgbOp, isCmykOp, isGrayOp, isTransparencyOp, imageOpDims, imageDpi,
      min_def]

/-- Witness for C7 at the 900×1200 px / 432×576 pt boundary case. -/
theorem c7_image_dpi_witness :
    ((stepOp 1 432 576 {} (PdfOp.paintImageXObject (some (900, 1200)))).lowResImages
        = ({} : Acc).lowResImages +
          (if min ((900 : ℚ) / (432 / 72)) ((1200 : ℚ) / (576 / 72)) < 150 then 1 else 0)) ∧
    imageDpi 900 1200 432 576 = 150 ∧
    (stepOp 1 432 576 {} (PdfOp.paintImageXObject (some (900, 1200)))).lowResImages = 0 :=
  c7_image_dpi 900 1200 432 576 {} 1 (by norm_num) (by norm_num) (by norm_num) (by norm_num)

/-- A natural number at most 255 passes through the clamped-rounding store
unchanged. -/
theorem clampRound8_natCast (v : ℕ) (h : v ≤ 255) : clampRound8 (v : ℚ) = v := by
  simp only [clampRound8, roundHalfEven]
  rw [Int.floor_natCast]
  rcases Nat.eq_zero_or_pos v with h0 | h0
  · subst h0; norm_num
  · have hpos : (0 : ℚ) < v := by exact_mod_cast h0
    rw [if_neg (not_le.mpr hpos)]
    by_cases h255 : (255 : ℚ) ≤ (v : ℚ)
    · have hv : v = 255 := le_antisymm h (by exact_mod_cast h255)
      subst hv; norm_num
    · rw [if_neg h255]
      have hz : (v : ℚ) - ((v : ℤ) : ℚ) = 0 := by norm_num
      rw [hz, if_pos (by norm_num : (0 : ℚ) < 1 / 2)]
      simp

/-- The clamped-rounding store always yields a byte value. -/
theorem clampRound8_le_255 (q : ℚ) : clampRound8 q ≤ 255 := by
  simp only [clampRound8]
  split_ifs with ha hb
  · omega
  · omega
  · have hq : q < 255 := lt_of_not_le hb
    have hf : (⌊q⌋ : ℚ) ≤ q := Int.floor_le q
    have hf2 : ⌊q⌋ < 255 := by exact_mod_cast lt_of_le_of_lt hf hq
    have hr : roundHalfEven q ≤ ⌊q⌋ + 1 := by
      simp only [roundHalfEven]; split_ifs <;> omega
    exact Int.toNat_le.mpr (by omega)

/-- The luma of an already-gray pixel is its channel value: the three
coefficients sum to exactly 1. -/
theorem grayLuma_gray (v a : ℕ) : grayLuma ⟨v, v, v, a⟩ = v := by
  simp only [grayLuma]; ring

/-- The grayscale mutation fixes any pixel whose channels are equal bytes. -/
theorem grayscalePixel_gray (v a : ℕ) (h : v ≤ 255) :
    grayscalePixel ⟨v, v, v, a⟩ = ⟨v, v, v, a⟩ := by
  simp only [grayscalePixel, grayLuma_gray, clampRound8_natCast v h]

/-- The grayscale pixel mutation is idempotent. -/
theorem grayscalePixel_idem (p : Pixel) :
    grayscalePixel (grayscalePixel p) = grayscalePixel p := by
  have h1 : grayscalePixel p =
      ⟨clampRound8 (grayLuma p), clampRound8 (grayLuma p), clampRound8 (grayLuma p), p.a⟩ := rfl
  rw [h1, grayscalePixel_gray _ _ (clampRound8_le_255 _)]

/-- C8: the grayscale conversion is idempotent on pixel values — a pixel whose
R, G and B channels are already equal (byte) values is left unchanged, and
re-running the transform's per-pixel mutation on its own output changes no
pixel. -/
theorem c8_grayscale_idempotent :
    (∀ p : Pixel, p.r = p.g → p.g = p.b → p.r ≤ 255 → grayscalePixel p = p) ∧
    (∀ pixels : List Pixel,
      convertCanvasToGrayscale (convertCanvasToGrayscale pixels) =
        convertCanvasToGrayscale pixels) := by
  constructor
  · intro p hrg hgb hle
    rcases p with ⟨r, g, b, a⟩
    dsimp only at hrg hgb hle
    subst hrg; subst hgb
    exact grayscalePixel_gray _ _ hle
  · intro pixels
    simp only [convertCanvasToGrayscale, List.map_map]
    exact List.map_congr_left fun p _ => grayscalePixel_idem p

/-- Witness for C8 at a gray pixel (7,7,7) and a colored single-pixel image. -/
theorem c8_grayscale_idempotent_witness :
    grayscalePixel ⟨7, 7, 7, 200⟩ = ⟨7, 7, 7, 200⟩ ∧
    convertCanvasToGrayscale (convertCanvasToGrayscale [⟨10, 200, 30, 255⟩]) =
      convertCanvasToGrayscale [⟨10, 200, 30, 255⟩] :=
  ⟨c8_grayscale_idempotent.1 ⟨7, 7, 7, 200⟩ rfl rfl (by norm_num),
   c8_grayscale_idempotent.2 [⟨10, 200, 30, 255⟩]⟩

/-- C9: a tacHeatmap command whose page index lies outside 1..pageCount
terminates with a `tacHeatmapError` message (the index is rejected, not
clamped) and never with a `tacHeatmapResult`. -/
theorem c9_tac_out_of_range (doc : TacDoc) (pi : ℤ)
    (h : pi < 1 ∨ pi > (doc.pages.length : ℤ)) :
    (∃ msg, handleTacHeatmap doc (some pi) = TacOutbound.tacHeatmapError msg) ∧
    (∀ r, handleTacHeatmap doc (some pi) ≠ TacOutbound.tacHeatmapResult r) := by
  have hEq : handleTacHeatmap doc (some pi) =
      TacOutbound.tacHeatmapError ("Page " ++ toString pi ++ " out of range (1-" ++
        toString doc.pages.length ++ ")") := by
    simp only [handleTacHeatmap, generateTacHeatmap, Option.getD_some]
    rw [if_pos h]
  exact ⟨⟨_, hEq⟩, fun r hr => by rw [hEq] at hr; exact TacOutbound.noConfusion hr⟩

/-- Witness for C9: page 5 of a one-page document is rejected. -/
theorem c9_tac_out_of_range_witness :
    (∃ msg, handleTacHeatmap ⟨[⟨1, 1, [⟨255, 255, 255, 255⟩]⟩]⟩ (some 5) =
        TacOutbound.tacHeatmapError msg) ∧
    (∀ r, handleTacHeatmap ⟨[⟨1, 1, [⟨255, 255, 255, 255⟩]⟩]⟩ (some 5) ≠
        TacOutbound.tacHeatmapResult r) :=
  c9_tac_out_of_range ⟨[⟨1, 1, [⟨255, 255, 255, 255⟩]⟩]⟩ 5 (Or.inr (by norm_num))

/-- The score fold of `buildResult` subtracts 15 per error-severity issue and
7 per warning-severity issue from its initial value. -/
theorem scoreFold_general (l : List Issue) : ∀ init : ℤ,
    l.foldl
      (fun s it =>
        match getSeverity it with
        | Severity.error => s - 15
        | Severity.warning => s - 7
        | Severity.info => s) init
    = init - 15 * (severityCount l Severity.error : ℤ)
        - 7 * (severityCount l Severity.warning : ℤ) := by
  induction l with
  | nil => intro init; simp [severityCount]
  | cons a t ih =>
    intro init
    simp only [List.foldl_cons]
    rcases h : getSeverity a with _ | _ | _
    · simp [h, ih, severityCount, List.filter_cons]
    · simp [h, ih, severityCount, List.filter_cons]
      ring
    · simp [h, ih, severityCount, List.filter_cons]
      ring

/-- `scoreFold` evaluated from its initial value 100. -/
theorem scoreFold_eq (l : List Issue) :
    scoreFold l = 100 - 15 * (severityCount l Severity.error : ℤ)
      - 7 * (severityCount l Severity.warning : ℤ) :=
  scoreFold_general l 100

/-- `buildResult` keeps the issue list it is given. -/
theorem buildResult_issues (issues : List Issue) (pageCount : ℕ) (m : FileMeta) :
    (buildResult issues pageCount m).issues = issues := rfl

/-- The score field of `buildResult` is the clamped linear formula in the
severity counts. -/
theorem buildResult_score (issues : List Issue) (pageCount : ℕ) (m : FileMeta) :
    (buildResult issues pageCount m).score =
      min 100 (max 0 (100 - 15 * (severityCount issues Severity.error : ℤ)
        - 7 * (severityCount issues Severity.warning : ℤ))) := by
  show min 100 (max 0 (scoreFold issues)) = _
  rw [scoreFold_eq]

/-- `analyzePdf` always returns a `buildResult` value. -/
theorem analyzePdf_eq_buildResult (doc : DocModel) (m : FileMeta) :
    ∃ issues pageCount, analyzePdf doc m = buildResult issues pageCount m := by
  simp only [analyzePdf]
  split
  · exact ⟨_, _, rfl⟩
  · exact ⟨_, _, rfl⟩

/-- C1: for every analyzed document the result score is the clamp to [0,100]
of `100 − 15·errors − 7·warnings`, where errors/warnings count the result's
issues by resolved severity (info-severity issues subtract nothing and the
score is an integer, so rounding is the identity); in particular the score
always lies between 0 and 100. -/
theorem c1_score_formula (doc : DocModel) (m : FileMeta) :
    (analyzePdf doc m).score =
      min 100 (max 0 (100
        - 15 * (severityCount (analyzePdf doc m).issues Severity.error : ℤ)
        - 7 * (severityCount (analyzePdf doc m).issues Severity.warning : ℤ))) ∧
    0 ≤ (analyzePdf doc m).score ∧ (analyzePdf doc m).score ≤ 100 := by
  obtain ⟨issues, pageCount, hEq⟩ := analyzePdf_eq_buildResult doc m
  rw [hEq, buildResult_issues, buildResult_score]
  refine ⟨rfl, le_min (by norm_num) (le_max_left 0 _), min_le_left _ _⟩

/-- C3: analyzing a document that loads with zero pages yields exactly the
single `empty-document` error issue against page 1, an empty per-page list
and a reported page count of 0. -/
theorem c3_empty_document (doc : DocModel) (m : FileMeta) (h : doc.pages = []) :
    (analyzePdf doc m).issues = [emptyDocumentIssue] ∧
    emptyDocumentIssue.id = "empty-document" ∧
    getSeverity emptyDocumentIssue = Severity.error ∧
    emptyDocumentIssue.page = 1 ∧
    (analyzePdf doc m).pages = [] ∧
    (analyzePdf doc m).meta.pageCount = 0 := by
  have h0 : doc.pages.length = 0 := by rw [h]; rfl
  refine ⟨?_, rfl, rfl, rfl, ?_, ?_⟩ <;>
    simp [analyzePdf, h0, buildResult]

/-- Witness for C3 on a concrete empty document. -/
theorem c3_empty_document_witness :
    (analyzePdf ⟨[], false, none⟩ ⟨"empty.pdf", 0⟩).issues = [emptyDocumentIssue] ∧
    emptyDocumentIssue.id = "empty-document" ∧
    getSeverity emptyDocumentIssue = Severity.error ∧
    emptyDocumentIssue.page = 1 ∧
    (analyzePdf ⟨[], false, none⟩ ⟨"empty.pdf", 0⟩).pages = [] ∧
    (analyzePdf ⟨[], false, none⟩ ⟨"empty.pdf", 0⟩).meta.pageCount = 0 :=
  c3_empty_document ⟨[], false, none⟩ ⟨"empty.pdf", 0⟩ rfl

/-- The rule-evaluation fold never returns an empty issue list: the color
rule is an unconditional if/else contributing one issue. -/
theorem generateIssues_length_pos (acc : Acc) (m : FileMeta) :
    0 < (generateIssues acc m).length := by
  unfold generateIssues
  simp only [List.length_append]
  have h : 0 < (if acc.anyColorLikeOps then [colorDetectedIssue acc] else [noColorOpsIssue]).length := by
    split <;> simp
  omega

/-- The first character of the `Found …` summary sentence. -/
theorem found_head (e w i : ℕ) : (foundSummary e w i).data.head? = some 'F' := rfl

/-- The `Found …` summary sentence is never the no-issues sentence. -/
theorem found_ne_noIssues (e w i : ℕ) :
    foundSummary e w i ≠ "No issues found on the sampled pages." := by
  intro h
  have h2 : (foundSummary e w i).data.head? =
      ("No issues found on the sampled pages." : String).data.head? := by rw [h]
  rw [found_head] at h2
  exact absurd h2 (by decide)

/-- The summary of `buildResult` for a nonempty issue list is the `Found …`
sentence. -/
theorem buildResult_summary_ne_nil (issues : List Issue) (pageCount : ℕ) (m : FileMeta)
    (h : issues ≠ []) :
    (buildResult issues pageCount m).summary =
      foundSummary (severityCount issues Severity.error)
        (severityCount issues Severity.warning) (severityCount issues Severity.info) := by
  have hlen : issues.length ≠ 0 := fun hc => h (List.length_eq_zero.mp hc)
  simp [buildResult, hlen]

/-- C10: every successful analyze run produces at least one issue — the color
rule always emits either `color-content-detected` or `no-explicit-color-ops`
and a zero-page document emits `empty-document` — so the issue list is never
empty and the result summary is never the `No issues found on the sampled
pages.` sentence (that branch of `buildResult` is unreachable from
`analyzePdf`). -/
theorem c10_never_no_issues (doc : DocModel) (m : FileMeta) :
    (analyzePdf doc m).issues ≠ [] ∧
    (analyzePdf doc m).summary ≠ "No issues found on the sampled pages." := by
  by_cases h0 : doc.pages.length = 0
  · have hEq : analyzePdf doc m = buildResult [emptyDocumentIssue] 0 m := by
      simp [analyzePdf, h0]
    rw [hEq, buildResult_issues, buildResult_summary_ne_nil _ _ _ (by simp)]
    exact ⟨by simp, found_ne_noIssues _ _ _⟩
  · have hEq : analyzePdf doc m =
        buildResult
          (generateIssues
            ((doc.pages.take 10).enum.foldl
              (fun a ip => processPage doc.libLoaded (ip.1 + 1) ip.2 a)
              (initAcc doc)) m)
          doc.pages.length m := by
      simp [analyzePdf, h0]
    have hne : generateIssues
        ((doc.pages.take 10).enum.foldl
          (fun a ip => processPage doc.libLoaded (ip.1 + 1) ip.2 a)
          (initAcc doc)) m ≠ [] :=
      List.length_pos.mp (generateIssues_length_pos _ _)
    rw [hEq, buildResult_issues, buildResult_summary_ne_nil _ _ _ hne]
    exact ⟨hne, found_ne_noIssues _ _ _⟩

end Preflight
